import Mathlib

/-!
Verification of the build script `testcrate/build.rs` of the libressl-src
repository.  The script is straight-line sequential I/O:

  1. print `cargo:rerun-if-changed=build.rs` on stdout;
  2. call the external builder `Build::new().build()`, which either aborts the
     process or yields an artifact descriptor;
  3. print the descriptor's cargo linker metadata on stdout;
  4. read `OUT_DIR` (as an OS string), aborting when absent;
  5. create the file `include` and write the UTF-8 decoding of the descriptor's
     include directory into it (aborting on a creation, decoding or write failure);
  6. likewise for `lib` with the descriptor's library directory;
  7. create `target`, read `TARGET`, and write it (same failure discipline);
  8. create `libressl-src-version` and write `src::version()` into it.

The embedding below runs this script over an explicit `World` of inputs: the
builder's outcome, the two environment variables, the version string, and
oracles saying which file creations and writes succeed.  Every observable
action is recorded in an event trace; a Rust `unwrap` panic is modelled by an
`aborted` flag that stops the run, so an aborted run performs no later action.
-/

namespace LibresslTestcrate

/-- An operating-system string (`OsString`), modelled by the one observation
the script makes of it: its optional UTF-8 decoding `to_str` (`none` when the
bytes are not valid UTF-8). -/
structure OsStr where
  utf8 : Option String
deriving DecidableEq

/-- The artifact descriptor returned by the external builder on success:
the include directory, the library directory, and the cargo linker metadata
lines that `print_cargo_metadata` prints to stdout. -/
structure Artifacts where
  include_dir : OsStr
  lib_dir : OsStr
  cargoMetadata : List String
deriving DecidableEq

/-- The two environment variables the script reads.  `out_dir` is read with
`env::var_os` (an arbitrary OS string, `none` when absent); `target` is read
with `env::var` (`none` when absent or not valid UTF-8). -/
structure Env where
  out_dir : Option OsStr
  target : Option String
deriving DecidableEq

/-- All inputs of one run: the external builder's outcome (`none` when the
build step itself aborts), the crate version returned by `src::version()`,
the environment, and oracles telling which `File::create` and `write_all`
calls succeed (keyed by the file's name under `OUT_DIR`). -/
structure World where
  buildResult : Option Artifacts
  version : String
  env : Env
  createOk : String → Bool
  writeOk : String → Bool

/-- One observable action of the script: a line printed to stdout, an
environment-variable read, a file creation, or a write of a full string
into a file.  The script performs no other I/O; in particular it never
reads a file back. -/
inductive Event where
  | stdout (line : String)
  | envRead (name : String)
  | createFile (name : String)
  | writeFile (name : String) (content : String)
deriving DecidableEq

/-- The outcome of a run: the trace of events it performed, in order, and
whether it aborted (a Rust panic from `unwrap`) before completing. -/
structure RunState where
  events : List Event
  aborted : Bool
deriving DecidableEq

/-- The line printed by `println!("cargo:rerun-if-changed=build.rs")`. -/
def rerunLine : String := "cargo:rerun-if-changed=build.rs"

/-- The names of the four output files, in the order the script handles them. -/
def fileNames : List String := ["include", "lib", "target", "libressl-src-version"]

/-- One `File::create(out_dir.join(name)).unwrap().write_all(content).unwrap()`
statement.  Evaluation order follows Rust: the creation happens first; then the
argument of `write_all` is evaluated (`pre` records env reads made there, and
`content = none` models a panicking `unwrap` inside it); then the write.  On
any failure the run aborts with the events performed so far; on success the
continuation `k` receives the extended trace. -/
def fileStep (w : World) (name : String) (pre : List Event) (content : Option String)
    (ev : List Event) (k : List Event → RunState) : RunState :=
  if w.createOk name then
    let ev1 := ev ++ [Event.createFile name] ++ pre
    match content with
    | none => ⟨ev1, true⟩
    | some c =>
      if w.writeOk name then k (ev1 ++ [Event.writeFile name c])
      else ⟨ev1, true⟩
  else ⟨ev, true⟩

/-- The run of `fn main()` of `testcrate/build.rs` on the inputs `w`,
statement by statement in source order. -/
def run (w : World) : RunState :=
  let ev0 : List Event := [Event.stdout rerunLine]
  match w.buildResult with
  | none => ⟨ev0, true⟩
  | some a =>
    let ev1 := ev0 ++ a.cargoMetadata.map Event.stdout ++ [Event.envRead "OUT_DIR"]
    match w.env.out_dir with
    | none => ⟨ev1, true⟩
    | some _ =>
      fileStep w "include" [] a.include_dir.utf8 ev1 fun ev2 =>
      fileStep w "lib" [] a.lib_dir.utf8 ev2 fun ev3 =>
      fileStep w "target" [Event.envRead "TARGET"] w.env.target ev3 fun ev4 =>
      fileStep w "libressl-src-version" [] (some w.version) ev4 fun ev5 =>
      ⟨ev5, false⟩

/-- The name of the file created by an event, when it is a creation. -/
def createName : Event → Option String
  | .createFile n => some n
  | _ => none

/-- The names of the files a run created, in creation order. -/
def createdFiles (s : RunState) : List String := s.events.filterMap createName

/-- The (file name, content) pair of an event, when it is a write. -/
def writeEntry : Event → Option (String × String)
  | .writeFile n c => some (n, c)
  | _ => none

/-- The writes a run performed, in order: file name and the exact string
written (`write_all` of its bytes, so the file holds exactly these bytes). -/
def writes (s : RunState) : List (String × String) := s.events.filterMap writeEntry

/-- Whether an event is a stdout print. -/
def isStdout : Event → Bool
  | .stdout _ => true
  | _ => false

@[simp] lemma createName_stdout (l : String) : createName (Event.stdout l) = none := rfl

@[simp] lemma createName_envRead (n : String) : createName (Event.envRead n) = none := rfl

@[simp] lemma createName_createFile (n : String) : createName (Event.createFile n) = some n := rfl

@[simp] lemma createName_writeFile (n c : String) : createName (Event.writeFile n c) = none := rfl

@[simp] lemma writeEntry_stdout (l : String) : writeEntry (Event.stdout l) = none := rfl

@[simp] lemma writeEntry_envRead (n : String) : writeEntry (Event.envRead n) = none := rfl

@[simp] lemma writeEntry_createFile (n : String) : writeEntry (Event.createFile n) = none := rfl

@[simp] lemma writeEntry_writeFile (n c : String) :
    writeEntry (Event.writeFile n c) = some (n, c) := rfl

@[simp] lemma filterMap_createName_stdoutMap (l : List String) :
    (l.map Event.stdout).filterMap createName = [] := by
  induction l with
  | nil => rfl
  | cons x xs ih => simp [ih]

@[simp] lemma filterMap_writeEntry_stdoutMap (l : List String) :
    (l.map Event.stdout).filterMap writeEntry = [] := by
  induction l with
  | nil => rfl
  | cons x xs ih => simp [ih]

/-- The full event trace of a run in which every step succeeds. -/
def successEvents (a : Artifacts) (inc lb tgt ver : String) : List Event :=
  Event.stdout rerunLine :: a.cargoMetadata.map Event.stdout ++
    [Event.envRead "OUT_DIR",
     Event.createFile "include", Event.writeFile "include" inc,
     Event.createFile "lib", Event.writeFile "lib" lb,
     Event.createFile "target", Event.envRead "TARGET", Event.writeFile "target" tgt,
     Event.createFile "libressl-src-version", Event.writeFile "libressl-src-version" ver]

lemma run_success (w : World) (a : Artifacts) (d : OsStr) (inc lb tgt : String)
    (hb : w.buildResult = some a) (ho : w.env.out_dir = some d)
    (hinc : a.include_dir.utf8 = some inc) (hlb : a.lib_dir.utf8 = some lb)
    (htgt : w.env.target = some tgt)
    (hc1 : w.createOk "include" = true) (hw1 : w.writeOk "include" = true)
    (hc2 : w.createOk "lib" = true) (hw2 : w.writeOk "lib" = true)
    (hc3 : w.createOk "target" = true) (hw3 : w.writeOk "target" = true)
    (hc4 : w.createOk "libressl-src-version" = true)
    (hw4 : w.writeOk "libressl-src-version" = true) :
    run w = ⟨successEvents a inc lb tgt w.version, false⟩ := by
  simp [run, fileStep, hb, ho, hinc, hlb, htgt, hc1, hw1, hc2, hw2, hc3, hw3, hc4, hw4,
    successEvents]

lemma run_not_aborted (w : World) (h : (run w).aborted = false) :
    ∃ a d inc lb tgt, w.buildResult = some a ∧ w.env.out_dir = some d ∧
      a.include_dir.utf8 = some inc ∧ a.lib_dir.utf8 = some lb ∧
      w.env.target = some tgt ∧
      w.createOk "include" = true ∧ w.writeOk "include" = true ∧
      w.createOk "lib" = true ∧ w.writeOk "lib" = true ∧
      w.createOk "target" = true ∧ w.writeOk "target" = true ∧
      w.createOk "libressl-src-version" = true ∧
      w.writeOk "libressl-src-version" = true := by
  cases hb : w.buildResult with
  | none => simp [run, hb] at h
  | some a =>
    cases ho : w.env.out_dir with
    | none => simp [run, hb, ho] at h
    | some d =>
      cases hc1 : w.createOk "include" with
      | false => simp [run, fileStep, hb, ho, hc1] at h
      | true =>
        cases hinc : a.include_dir.utf8 with
        | none => simp [run, fileStep, hb, ho, hc1, hinc] at h
        | some inc =>
          cases hw1 : w.writeOk "include" with
          | false => simp [run, fileStep, hb, ho, hc1, hinc, hw1] at h
          | true =>
            cases hc2 : w.createOk "lib" with
            | false => simp [run, fileStep, hb, ho, hc1, hinc, hw1, hc2] at h
            | true =>
              cases hlb : a.lib_dir.utf8 with
              | none => simp [run, fileStep, hb, ho, hc1, hinc, hw1, hc2, hlb] at h
              | some lb =>
                cases hw2 : w.writeOk "lib" with
                | false => simp [run, fileStep, hb, ho, hc1, hinc, hw1, hc2, hlb, hw2] at h
                | true =>
                  cases hc3 : w.createOk "target" with
                  | false =>
                    simp [run, fileStep, hb, ho, hc1, hinc, hw1, hc2, hlb, hw2, hc3] at h
                  | true =>
                    cases htgt : w.env.target with
                    | none =>
                      simp [run, fileStep, hb, ho, hc1, hinc, hw1, hc2, hlb, hw2, hc3,
                        htgt] at h
                    | some tgt =>
                      cases hw3 : w.writeOk "target" with
                      | false =>
                        simp [run, fileStep, hb, ho, hc1, hinc, hw1, hc2, hlb, hw2, hc3,
                          htgt, hw3] at h
                      | true =>
                        cases hc4 : w.createOk "libressl-src-version" with
                        | false =>
                          simp [run, fileStep, hb, ho, hc1, hinc, hw1, hc2, hlb, hw2,
                            hc3, htgt, hw3, hc4] at h
                        | true =>
                          cases hw4 : w.writeOk "libressl-src-version" with
                          | false =>
                            simp [run, fileStep, hb, ho, hc1, hinc, hw1, hc2, hlb, hw2,
                              hc3, htgt, hw3, hc4, hw4] at h
                          | true =>
                            exact ⟨a, d, inc, lb, tgt, rfl, rfl, hinc, hlb, rfl,
                              rfl, rfl, rfl, rfl, rfl, rfl, rfl, rfl⟩

lemma writes_success (a : Artifacts) (inc lb tgt ver : String) :
    writes ⟨successEvents a inc lb tgt ver, false⟩ =
      [("include", inc), ("lib", lb), ("target", tgt), ("libressl-src-version", ver)] := by
  simp [writes, successEvents]

lemma createdFiles_success (a : Artifacts) (inc lb tgt ver : String) :
    createdFiles ⟨successEvents a inc lb tgt ver, false⟩ = fileNames := by
  simp [createdFiles, successEvents, fileNames]

lemma run_shape (w : World) :
    (w.buildResult = none ∧ run w = ⟨[Event.stdout rerunLine], true⟩)
    ∨ ∃ a rest, w.buildResult = some a ∧
        (run w).events =
          Event.stdout rerunLine :: a.cargoMetadata.map Event.stdout
            ++ Event.envRead "OUT_DIR" :: rest ∧
        rest.all (fun e => !isStdout e) = true := by
  cases hb : w.buildResult with
  | none => exact Or.inl ⟨rfl, by simp [run, hb]⟩
  | some a =>
    cases ho : w.env.out_dir with
    | none => exact Or.inr ⟨a, [], rfl, by simp [run, hb, ho], rfl⟩
    | some d =>
      cases hc1 : w.createOk "include" with
      | false => exact Or.inr ⟨a, [], rfl, by simp [run, fileStep, hb, ho, hc1], rfl⟩
      | true =>
        cases hinc : a.include_dir.utf8 with
        | none =>
          exact Or.inr ⟨a, [Event.createFile "include"], rfl,
            by simp [run, fileStep, hb, ho, hc1, hinc], by simp [isStdout]⟩
        | some inc =>
          cases hw1 : w.writeOk "include" with
          | false =>
            exact Or.inr ⟨a, [Event.createFile "include"], rfl,
              by simp [run, fileStep, hb, ho, hc1, hinc, hw1], by simp [isStdout]⟩
          | true =>
            cases hc2 : w.createOk "lib" with
            | false =>
              exact Or.inr ⟨a,
                [Event.createFile "include", Event.writeFile "include" inc], rfl,
                by simp [run, fileStep, hb, ho, hc1, hinc, hw1, hc2],
                by simp [isStdout]⟩
            | true =>
              cases hlb : a.lib_dir.utf8 with
              | none =>
                exact Or.inr ⟨a,
                  [Event.createFile "include", Event.writeFile "include" inc,
                   Event.createFile "lib"], rfl,
                  by simp [run, fileStep, hb, ho, hc1, hinc, hw1, hc2, hlb],
                  by simp [isStdout]⟩
              | some lb =>
                cases hw2 : w.writeOk "lib" with
                | false =>
                  exact Or.inr ⟨a,
                    [Event.createFile "include", Event.writeFile "include" inc,
                     Event.createFile "lib"], rfl,
                    by simp [run, fileStep, hb, ho, hc1, hinc, hw1, hc2, hlb, hw2],
                    by simp [isStdout]⟩
                | true =>
                  cases hc3 : w.createOk "target" with
                  | false =>
                    exact Or.inr ⟨a,
                      [Event.createFile "include", Event.writeFile "include" inc,
                       Event.createFile "lib", Event.writeFile "lib" lb], rfl,
                      by simp [run, fileStep, hb, ho, hc1, hinc, hw1, hc2, hlb, hw2, hc3],
                      by simp [isStdout]⟩
                  | true =>
                    cases htgt : w.env.target with
                    | none =>
                      exact Or.inr ⟨a,
                        [Event.createFile "include", Event.writeFile "include" inc,
                         Event.createFile "lib", Event.writeFile "lib" lb,
                         Event.createFile "target", Event.envRead "TARGET"], rfl,
                        by simp [run, fileStep, hb, ho, hc1, hinc, hw1, hc2, hlb, hw2,
                          hc3, htgt],
                        by simp [isStdout]⟩
                    | some tgt =>
                      cases hw3 : w.writeOk "target" with
                      | false =>
                        exact Or.inr ⟨a,
                          [Event.createFile "include", Event.writeFile "include" inc,
                           Event.createFile "lib", Event.writeFile "lib" lb,
                           Event.createFile "target", Event.envRead "TARGET"], rfl,
                          by simp [run, fileStep, hb, ho, hc1, hinc, hw1, hc2, hlb, hw2,
                            hc3, htgt, hw3],
                          by simp [isStdout]⟩
                      | true =>
                        cases hc4 : w.createOk "libressl-src-version" with
                        | false =>
                          exact Or.inr ⟨a,
                            [Event.createFile "include", Event.writeFile "include" inc,
                             Event.createFile "lib", Event.writeFile "lib" lb,
                             Event.createFile "target", Event.envRead "TARGET",
                             Event.writeFile "target" tgt], rfl,
                            by simp [run, fileStep, hb, ho, hc1, hinc, hw1, hc2, hlb,
                              hw2, hc3, htgt, hw3, hc4],
                            by simp [isStdout]⟩
                        | true =>
                          cases hw4 : w.writeOk "libressl-src-version" with
                          | false =>
                            exact Or.inr ⟨a,
                              [Event.createFile "include", Event.writeFile "include" inc,
                               Event.createFile "lib", Event.writeFile "lib" lb,
                               Event.createFile "target", Event.envRead "TARGET",
                               Event.writeFile "target" tgt,
                               Event.createFile "libressl-src-version"], rfl,
                              by simp [run, fileStep, hb, ho, hc1, hinc, hw1, hc2, hlb,
                                hw2, hc3, htgt, hw3, hc4, hw4],
                              by simp [isStdout]⟩
                          | true =>
                            exact Or.inr ⟨a,
                              [Event.createFile "include", Event.writeFile "include" inc,
                               Event.createFile "lib", Event.writeFile "lib" lb,
                               Event.createFile "target", Event.envRead "TARGET",
                               Event.writeFile "target" tgt,
                               Event.createFile "libressl-src-version",
                               Event.writeFile "libressl-src-version" w.version], rfl,
                              by simp [run, fileStep, hb, ho, hc1, hinc, hw1, hc2, hlb,
                                hw2, hc3, htgt, hw3, hc4, hw4],
                              by simp [isStdout]⟩

/-- A sample artifact descriptor with UTF-8 paths, used to witness theorems. -/
def sampleArtifacts : Artifacts :=
  ⟨⟨some "/build/include"⟩, ⟨some "/build/lib"⟩, ["cargo:root=/build"]⟩

/-- A sample environment with both variables present. -/
def sampleEnv : Env := ⟨some ⟨some "/out"⟩, some "x86_64-unknown-linux-gnu"⟩

/-- A run input on which every step succeeds. -/
def sampleWorld : World :=
  ⟨some sampleArtifacts, "3.1.4", sampleEnv, fun _ => true, fun _ => true⟩

/-- A run input whose `OUT_DIR` environment variable is absent. -/
def worldNoOutDir : World :=
  ⟨some sampleArtifacts, "3.1.4", ⟨none, some "x86_64-unknown-linux-gnu"⟩,
    fun _ => true, fun _ => true⟩

/-- A run input on which the external build step itself aborts. -/
def worldBuildFail : World := ⟨none, "3.1.4", sampleEnv, fun _ => true, fun _ => true⟩

/-- C1: in every run where the external build succeeds yielding an include
directory, a library directory and a version string, and `TARGET` is set, and
the run completes (so the four output files were all produced), the four files
contain exactly the include path, the library path, the target string and the
version string, byte for byte, in that order, with nothing else written. -/
theorem c1_successful_run_file_contents (w : World) (a : Artifacts) (inc lb tgt : String)
    (hb : w.buildResult = some a) (hinc : a.include_dir.utf8 = some inc)
    (hlb : a.lib_dir.utf8 = some lb) (htgt : w.env.target = some tgt)
    (hok : (run w).aborted = false) :
    writes (run w) =
      [("include", inc), ("lib", lb), ("target", tgt),
       ("libressl-src-version", w.version)] := by
  obtain ⟨a2, d, inc2, lb2, tgt2, hb2, ho, hinc2, hlb2, htgt2,
    hc1, hw1, hc2, hw2, hc3, hw3, hc4, hw4⟩ := run_not_aborted w hok
  rw [run_success w a d inc lb tgt hb ho hinc hlb htgt hc1 hw1 hc2 hw2 hc3 hw3 hc4 hw4]
  exact writes_success a inc lb tgt w.version

/-- Witness for C1 on a concrete successful run. -/
theorem c1_witness :
    writes (run sampleWorld) =
      [("include", "/build/include"), ("lib", "/build/lib"),
       ("target", "x86_64-unknown-linux-gnu"), ("libressl-src-version", "3.1.4")] :=
  c1_successful_run_file_contents sampleWorld sampleArtifacts
    "/build/include" "/build/lib" "x86_64-unknown-linux-gnu" rfl rfl rfl rfl rfl

/-- C2: in every run where `OUT_DIR` is absent the process aborts, and it does
so before creating any file: the run creates no file and writes nothing. -/
theorem c2_no_out_dir_no_files (w : World) (h : w.env.out_dir = none) :
    (run w).aborted = true ∧ createdFiles (run w) = [] ∧ writes (run w) = [] := by
  cases hb : w.buildResult with
  | none => simp [run, hb, createdFiles, writes]
  | some a => simp [run, hb, h, createdFiles, writes]

/-- Witness for C2 on a concrete run missing `OUT_DIR`. -/
theorem c2_witness :
    (run worldNoOutDir).aborted = true ∧ createdFiles (run worldNoOutDir) = [] ∧
      writes (run worldNoOutDir) = [] :=
  c2_no_out_dir_no_files worldNoOutDir rfl

/-- C3: in every run where the external build step aborts, the whole trace is
the single rerun-if-changed line: no file is created, nothing is written, and
no cargo linker metadata reaches stdout. -/
theorem c3_build_failure_no_outputs (w : World) (h : w.buildResult = none) :
    run w = ⟨[Event.stdout rerunLine], true⟩ ∧ createdFiles (run w) = [] ∧
      writes (run w) = [] := by
  simp [run, h, createdFiles, writes]

/-- Witness for C3 on a concrete run whose build step aborts. -/
theorem c3_witness :
    run worldBuildFail = ⟨[Event.stdout rerunLine], true⟩ ∧
      createdFiles (run worldBuildFail) = [] ∧ writes (run worldBuildFail) = [] :=
  c3_build_failure_no_outputs worldBuildFail rfl

/-- C5: every run that completes creates exactly the four files `include`,
`lib`, `target`, `libressl-src-version`, in that order and no others, and
performs exactly one write to each of them. -/
theorem c5_exactly_four_files (w : World) (h : (run w).aborted = false) :
    createdFiles (run w) = fileNames ∧ (writes (run w)).map Prod.fst = fileNames := by
  obtain ⟨a, d, inc, lb, tgt, hb, ho, hinc, hlb, htgt,
    hc1, hw1, hc2, hw2, hc3, hw3, hc4, hw4⟩ := run_not_aborted w h
  rw [run_success w a d inc lb tgt hb ho hinc hlb htgt hc1 hw1 hc2 hw2 hc3 hw3 hc4 hw4]
  refine ⟨createdFiles_success a inc lb tgt w.version, ?_⟩
  rw [writes_success a inc lb tgt w.version]
  rfl

/-- Witness for C5 on a concrete successful run. -/
theorem c5_witness :
    createdFiles (run sampleWorld) = fileNames ∧
      (writes (run sampleWorld)).map Prod.fst = fileNames :=
  c5_exactly_four_files sampleWorld rfl

/-- A run input whose `TARGET` environment variable is absent, with every
other step succeeding. -/
def worldNoTarget : World :=
  ⟨some sampleArtifacts, "3.1.4", ⟨some ⟨some "/out"⟩, none⟩,
    fun _ => true, fun _ => true⟩

/-- C4 counterexample: a run whose `TARGET` variable is absent, yet which has
already created the files `include`, `lib` and `target` (and written the first
two) by the time it aborts.  `TARGET` is not obtained before file creation:
the script only reads it when assembling the third file's content. -/
theorem c4_counterexample :
    worldNoTarget.env.target = none ∧ (run worldNoTarget).aborted = true ∧
      createdFiles (run worldNoTarget) = ["include", "lib", "target"] ∧
      (run worldNoTarget).events =
        [Event.stdout rerunLine, Event.stdout "cargo:root=/build",
         Event.envRead "OUT_DIR",
         Event.createFile "include", Event.writeFile "include" "/build/include",
         Event.createFile "lib", Event.writeFile "lib" "/build/lib",
         Event.createFile "target", Event.envRead "TARGET"] := by
  refine ⟨rfl, rfl, rfl, rfl⟩

@[simp] lemma envRead_not_mem_stdoutMap (n : String) (l : List String) :
    Event.envRead n ∉ l.map Event.stdout := by
  simp [List.mem_map]

lemma envRead_target_after_create (w : World)
    (h : Event.envRead "TARGET" ∈ (run w).events) :
    ∃ l1 l2, (run w).events =
      l1 ++ Event.createFile "target" :: Event.envRead "TARGET" :: l2 := by
  cases hb : w.buildResult with
  | none => simp [run, hb] at h
  | some a =>
    cases ho : w.env.out_dir with
    | none => simp [run, hb, ho] at h
    | some d =>
      cases hc1 : w.createOk "include" with
      | false => simp [run, fileStep, hb, ho, hc1] at h
      | true =>
        cases hinc : a.include_dir.utf8 with
        | none => simp [run, fileStep, hb, ho, hc1, hinc] at h
        | some inc =>
          cases hw1 : w.writeOk "include" with
          | false => simp [run, fileStep, hb, ho, hc1, hinc, hw1] at h
          | true =>
            cases hc2 : w.createOk "lib" with
            | false => simp [run, fileStep, hb, ho, hc1, hinc, hw1, hc2] at h
            | true =>
              cases hlb : a.lib_dir.utf8 with
              | none => simp [run, fileStep, hb, ho, hc1, hinc, hw1, hc2, hlb] at h
              | some lb =>
                cases hw2 : w.writeOk "lib" with
                | false =>
                  simp [run, fileStep, hb, ho, hc1, hinc, hw1, hc2, hlb, hw2] at h
                | true =>
                  cases hc3 : w.createOk "target" with
                  | false =>
                    simp [run, fileStep, hb, ho, hc1, hinc, hw1, hc2, hlb, hw2,
                      hc3] at h
                  | true =>
                    cases htgt : w.env.target with
                    | none =>
                      exact ⟨Event.stdout rerunLine ::
                          a.cargoMetadata.map Event.stdout
                            ++ [Event.envRead "OUT_DIR", Event.createFile "include",
                                Event.writeFile "include" inc,
                                Event.createFile "lib", Event.writeFile "lib" lb],
                        [],
                        by simp [run, fileStep, hb, ho, hc1, hinc, hw1, hc2, hlb,
                          hw2, hc3, htgt]⟩
                    | some tgt =>
                      cases hw3 : w.writeOk "target" with
                      | false =>
                        exact ⟨Event.stdout rerunLine ::
                            a.cargoMetadata.map Event.stdout
                              ++ [Event.envRead "OUT_DIR", Event.createFile "include",
                                  Event.writeFile "include" inc,
                                  Event.createFile "lib", Event.writeFile "lib" lb],
                          [],
                          by simp [run, fileStep, hb, ho, hc1, hinc, hw1, hc2, hlb,
                            hw2, hc3, htgt, hw3]⟩
                      | true =>
                        cases hc4 : w.createOk "libressl-src-version" with
                        | false =>
                          exact ⟨Event.stdout rerunLine ::
                              a.cargoMetadata.map Event.stdout
                                ++ [Event.envRead "OUT_DIR",
                                    Event.createFile "include",
                                    Event.writeFile "include" inc,
                                    Event.createFile "lib", Event.writeFile "lib" lb],
                            [Event.writeFile "target" tgt],
                            by simp [run, fileStep, hb, ho, hc1, hinc, hw1, hc2, hlb,
                              hw2, hc3, htgt, hw3, hc4]⟩
                        | true =>
                          cases hw4 : w.writeOk "libressl-src-version" with
                          | false =>
                            exact ⟨Event.stdout rerunLine ::
                                a.cargoMetadata.map Event.stdout
                                  ++ [Event.envRead "OUT_DIR",
                                      Event.createFile "include",
                                      Event.writeFile "include" inc,
                                      Event.createFile "lib",
                                      Event.writeFile "lib" lb],
                              [Event.writeFile "target" tgt,
                               Event.createFile "libressl-src-version"],
                              by simp [run, fileStep, hb, ho, hc1, hinc, hw1, hc2,
                                hlb, hw2, hc3, htgt, hw3, hc4, hw4]⟩
                          | true =>
                            exact ⟨Event.stdout rerunLine ::
                                a.cargoMetadata.map Event.stdout
                                  ++ [Event.envRead "OUT_DIR",
                                      Event.createFile "include",
                                      Event.writeFile "include" inc,
                                      Event.createFile "lib",
                                      Event.writeFile "lib" lb],
                              [Event.writeFile "target" tgt,
                               Event.createFile "libressl-src-version",
                               Event.writeFile "libressl-src-version" w.version],
                              by simp [run, fileStep, hb, ho, hc1, hinc, hw1, hc2,
                                hlb, hw2, hc3, htgt, hw3, hc4, hw4]⟩

/-- C4 amended: `OUT_DIR` is read before any file is created (every event
before the `OUT_DIR` read is a stdout print, and a build failure creates no
file at all), while in every run each read of `TARGET` happens immediately
after the file `target` is created — so `TARGET` is read only while writing
the third file; when `TARGET` is absent the run aborts having created
`include`, `lib` and `target` and written `include` and `lib`, without writing
`target` and without creating `libressl-src-version`. -/
theorem c4_amended_env_read_order :
    (∀ w : World, ∀ a, w.buildResult = some a →
      ∃ pre rest, (run w).events = pre ++ Event.envRead "OUT_DIR" :: rest ∧
        pre.all isStdout = true)
    ∧ (∀ w : World, Event.envRead "TARGET" ∈ (run w).events →
        ∃ l1 l2, (run w).events =
          l1 ++ Event.createFile "target" :: Event.envRead "TARGET" :: l2)
    ∧ (∀ w : World, w.buildResult = none → createdFiles (run w) = [])
    ∧ (∀ w : World, ∀ a d inc lb, w.buildResult = some a →
        w.env.out_dir = some d → a.include_dir.utf8 = some inc →
        a.lib_dir.utf8 = some lb → w.env.target = none →
        w.createOk "include" = true → w.writeOk "include" = true →
        w.createOk "lib" = true → w.writeOk "lib" = true →
        w.createOk "target" = true →
        run w = ⟨Event.stdout rerunLine :: a.cargoMetadata.map Event.stdout
            ++ [Event.envRead "OUT_DIR",
                Event.createFile "include", Event.writeFile "include" inc,
                Event.createFile "lib", Event.writeFile "lib" lb,
                Event.createFile "target", Event.envRead "TARGET"], true⟩) := by
  refine ⟨?_, ?_, ?_, ?_⟩
  · intro w a ha
    rcases run_shape w with ⟨hb, _⟩ | ⟨a2, rest, hb, hev, _⟩
    · rw [ha] at hb; cases hb
    · exact ⟨Event.stdout rerunLine :: a2.cargoMetadata.map Event.stdout, rest,
        by simpa using hev, by simp [isStdout]⟩
  · exact fun w h => envRead_target_after_create w h
  · intro w h
    simp [run, h, createdFiles]
  · intro w a d inc lb hb ho hinc hlb htgt hc1 hw1 hc2 hw2 hc3
    simp [run, fileStep, hb, ho, hinc, hlb, htgt, hc1, hw1, hc2, hw2, hc3]

/-- Witness for the amended C4: its last part evaluated on the concrete
`TARGET`-less run, the `TARGET`-read-position part on a concrete successful
run, and the `OUT_DIR` part on the same successful run. -/
theorem c4_witness :
    run worldNoTarget = ⟨Event.stdout rerunLine ::
        sampleArtifacts.cargoMetadata.map Event.stdout
          ++ [Event.envRead "OUT_DIR",
              Event.createFile "include",
              Event.writeFile "include" "/build/include",
              Event.createFile "lib", Event.writeFile "lib" "/build/lib",
              Event.createFile "target", Event.envRead "TARGET"], true⟩ ∧
      (∃ l1 l2, (run sampleWorld).events =
          l1 ++ Event.createFile "target" :: Event.envRead "TARGET" :: l2) ∧
      (∃ pre rest, (run sampleWorld).events =
          pre ++ Event.envRead "OUT_DIR" :: rest ∧ pre.all isStdout = true) :=
  ⟨c4_amended_env_read_order.2.2.2 worldNoTarget sampleArtifacts ⟨some "/out"⟩
      "/build/include" "/build/lib" rfl rfl rfl rfl rfl rfl rfl rfl rfl rfl,
    c4_amended_env_read_order.2.1 sampleWorld (by decide),
    c4_amended_env_read_order.1 sampleWorld sampleArtifacts rfl⟩

/-- C7: the rerun line is printed, then the external build runs; its cargo
linker metadata reaches stdout only when the build succeeded (a failed build's
trace is just the rerun line, with no metadata, no env read and no file
operation), and on success everything after the metadata — env reads, file
creations, file writes — is a non-stdout event, so no file is touched before
the metadata is emitted. -/
theorem c7_step_order (w : World) :
    (w.buildResult = none → run w = ⟨[Event.stdout rerunLine], true⟩)
    ∧ (∀ a, w.buildResult = some a →
        ∃ rest, (run w).events =
            Event.stdout rerunLine :: a.cargoMetadata.map Event.stdout
              ++ Event.envRead "OUT_DIR" :: rest ∧
          rest.all (fun e => !isStdout e) = true) := by
  rcases run_shape w with ⟨hb, hrun⟩ | ⟨a, rest, hb, hev, hall⟩
  · refine ⟨fun _ => hrun, fun a2 ha => ?_⟩
    rw [hb] at ha; cases ha
  · refine ⟨fun h => ?_, fun a2 ha => ?_⟩
    · rw [h] at hb; cases hb
    · rw [hb] at ha
      obtain rfl := Option.some.inj ha
      exact ⟨rest, hev, hall⟩

/-- Witness for C7: both parts evaluated on concrete runs (a failing build
and a successful one). -/
theorem c7_witness :
    run worldBuildFail = ⟨[Event.stdout rerunLine], true⟩ ∧
      (∃ rest, (run sampleWorld).events =
          Event.stdout rerunLine :: sampleArtifacts.cargoMetadata.map Event.stdout
            ++ Event.envRead "OUT_DIR" :: rest ∧
        rest.all (fun e => !isStdout e) = true) :=
  ⟨(c7_step_order worldBuildFail).1 rfl,
    (c7_step_order sampleWorld).2 sampleArtifacts rfl⟩

/-- C9: every run's trace starts with the line `cargo:rerun-if-changed=build.rs`,
and when the external build fails this line is the entire trace — it is thus
printed even on failing runs, and it is the only output before the build. -/
theorem c9_rerun_line_first (w : World) :
    (∃ rest, (run w).events = Event.stdout rerunLine :: rest)
    ∧ (w.buildResult = none → run w = ⟨[Event.stdout rerunLine], true⟩) := by
  rcases run_shape w with ⟨hb, hrun⟩ | ⟨a, rest, hb, hev, hall⟩
  · exact ⟨⟨[], by rw [hrun]⟩, fun _ => hrun⟩
  · refine ⟨⟨a.cargoMetadata.map Event.stdout ++ Event.envRead "OUT_DIR" :: rest,
      hev⟩, fun h => ?_⟩
    rw [h] at hb; cases hb

/-- Witness for C9 evaluated on a concrete failing-build run. -/
theorem c9_witness :
    (∃ rest, (run worldBuildFail).events = Event.stdout rerunLine :: rest) ∧
      run worldBuildFail = ⟨[Event.stdout rerunLine], true⟩ :=
  ⟨(c9_rerun_line_first worldBuildFail).1,
    (c9_rerun_line_first worldBuildFail).2 rfl⟩

/-- C6: every fallible step aborts the run on its first failure and no step
after a failed one executes.  A failed build call leaves only the rerun line;
a failed `OUT_DIR` lookup leaves no file and no write; a failed `TARGET`
lookup prevents the write to `target` and the creation of the fourth file; a
failed creation of any file prevents that creation and every later creation;
and a failed write to any of the four files aborts the run before any later
file is created. -/
theorem c6_abort_on_first_failure (w : World) :
    (w.buildResult = none → run w = ⟨[Event.stdout rerunLine], true⟩)
    ∧ (w.env.out_dir = none → (run w).aborted = true ∧
        createdFiles (run w) = [] ∧ writes (run w) = [])
    ∧ (w.env.target = none → (run w).aborted = true ∧
        (∀ c, ("target", c) ∉ writes (run w)) ∧
        "libressl-src-version" ∉ createdFiles (run w))
    ∧ (w.createOk "include" = false →
        (run w).aborted = true ∧ createdFiles (run w) = [])
    ∧ (w.createOk "lib" = false → (run w).aborted = true ∧
        "lib" ∉ createdFiles (run w) ∧ "target" ∉ createdFiles (run w) ∧
        "libressl-src-version" ∉ createdFiles (run w))
    ∧ (w.createOk "target" = false → (run w).aborted = true ∧
        "target" ∉ createdFiles (run w) ∧
        "libressl-src-version" ∉ createdFiles (run w))
    ∧ (w.createOk "libressl-src-version" = false → (run w).aborted = true ∧
        "libressl-src-version" ∉ createdFiles (run w))
    ∧ (w.writeOk "include" = false → (run w).aborted = true ∧
        "lib" ∉ createdFiles (run w) ∧ "target" ∉ createdFiles (run w) ∧
        "libressl-src-version" ∉ createdFiles (run w))
    ∧ (w.writeOk "lib" = false → (run w).aborted = true ∧
        "target" ∉ createdFiles (run w) ∧
        "libressl-src-version" ∉ createdFiles (run w))
    ∧ (w.writeOk "target" = false → (run w).aborted = true ∧
        "libressl-src-version" ∉ createdFiles (run w))
    ∧ (w.writeOk "libressl-src-version" = false → (run w).aborted = true) := by
  cases hb : w.buildResult with
  | none =>
    refine ⟨?_, ?_, ?_, ?_, ?_, ?_, ?_, ?_, ?_, ?_, ?_⟩ <;> (intro hf; simp_all [run, fileStep, createdFiles, writes])
  | some a =>
    cases ho : w.env.out_dir with
    | none =>
      refine ⟨?_, ?_, ?_, ?_, ?_, ?_, ?_, ?_, ?_, ?_, ?_⟩ <;> (intro hf; simp_all [run, fileStep, createdFiles, writes])
    | some d =>
      cases hc1 : w.createOk "include" with
      | false =>
        refine ⟨?_, ?_, ?_, ?_, ?_, ?_, ?_, ?_, ?_, ?_, ?_⟩ <;>
          (intro hf; simp_all [run, fileStep, createdFiles, writes])
      | true =>
        cases hinc : a.include_dir.utf8 with
        | none =>
          refine ⟨?_, ?_, ?_, ?_, ?_, ?_, ?_, ?_, ?_, ?_, ?_⟩ <;>
            (intro hf; simp_all [run, fileStep, createdFiles, writes])
        | some inc =>
          cases hw1 : w.writeOk "include" with
          | false =>
            refine ⟨?_, ?_, ?_, ?_, ?_, ?_, ?_, ?_, ?_, ?_, ?_⟩ <;>
              (intro hf; simp_all [run, fileStep, createdFiles, writes])
          | true =>
            cases hc2 : w.createOk "lib" with
            | false =>
              refine ⟨?_, ?_, ?_, ?_, ?_, ?_, ?_, ?_, ?_, ?_, ?_⟩ <;>
                (intro hf; simp_all [run, fileStep, createdFiles, writes])
            | true =>
              cases hlb : a.lib_dir.utf8 with
              | none =>
                refine ⟨?_, ?_, ?_, ?_, ?_, ?_, ?_, ?_, ?_, ?_, ?_⟩ <;>
                  (intro hf; simp_all [run, fileStep, createdFiles, writes])
              | some lb =>
                cases hw2 : w.writeOk "lib" with
                | false =>
                  refine ⟨?_, ?_, ?_, ?_, ?_, ?_, ?_, ?_, ?_, ?_, ?_⟩ <;>
                    (intro hf; simp_all [run, fileStep, createdFiles, writes])
                | true =>
                  cases hc3 : w.createOk "target" with
                  | false =>
                    refine ⟨?_, ?_, ?_, ?_, ?_, ?_, ?_, ?_, ?_, ?_, ?_⟩ <;>
                      (intro hf; simp_all [run, fileStep, createdFiles, writes])
                  | true =>
                    cases htgt : w.env.target with
                    | none =>
                      refine ⟨?_, ?_, ?_, ?_, ?_, ?_, ?_, ?_, ?_, ?_, ?_⟩ <;>
                        (intro hf; simp_all [run, fileStep, createdFiles, writes])
                    | some tgt =>
                      cases hw3 : w.writeOk "target" with
                      | false =>
                        refine ⟨?_, ?_, ?_, ?_, ?_, ?_, ?_, ?_, ?_, ?_, ?_⟩ <;>
                          (intro hf; simp_all [run, fileStep, createdFiles, writes])
                      | true =>
                        cases hc4 : w.createOk "libressl-src-version" with
                        | false =>
                          refine ⟨?_, ?_, ?_, ?_, ?_, ?_, ?_, ?_, ?_, ?_, ?_⟩ <;>
                            (intro hf; simp_all [run, fileStep, createdFiles, writes])
                        | true =>
                          cases hw4 : w.writeOk "libressl-src-version" with
                          | false =>
                            refine ⟨?_, ?_, ?_, ?_, ?_, ?_, ?_, ?_, ?_, ?_, ?_⟩ <;>
                              (intro hf; simp_all [run, fileStep, createdFiles, writes])
                          | true =>
                            refine ⟨?_, ?_, ?_, ?_, ?_, ?_, ?_, ?_, ?_, ?_, ?_⟩ <;>
                              (intro hf; simp_all [run, fileStep, createdFiles, writes])

/-- A run input on which the write to `include` fails. -/
def worldWriteIncludeFails : World :=
  ⟨some sampleArtifacts, "3.1.4", sampleEnv, fun _ => true,
    fun n => if n = "include" then false else true⟩

/-- A run input on which the creation of `lib` fails. -/
def worldCreateLibFails : World :=
  ⟨some sampleArtifacts, "3.1.4", sampleEnv,
    fun n => if n = "lib" then false else true, fun _ => true⟩

/-- Witness for C6: a concrete run whose write to `include` fails aborts
without creating any of the three later files, and a concrete run whose
creation of `lib` fails aborts without creating `lib` or any later file. -/
theorem c6_witness :
    ((run worldWriteIncludeFails).aborted = true ∧
      "lib" ∉ createdFiles (run worldWriteIncludeFails) ∧
      "target" ∉ createdFiles (run worldWriteIncludeFails) ∧
      "libressl-src-version" ∉ createdFiles (run worldWriteIncludeFails)) ∧
      ((run worldCreateLibFails).aborted = true ∧
        "lib" ∉ createdFiles (run worldCreateLibFails) ∧
        "target" ∉ createdFiles (run worldCreateLibFails) ∧
        "libressl-src-version" ∉ createdFiles (run worldCreateLibFails)) :=
  ⟨(c6_abort_on_first_failure worldWriteIncludeFails).2.2.2.2.2.2.2.1 (by decide),
    (c6_abort_on_first_failure worldCreateLibFails).2.2.2.2.1 (by decide)⟩

/-- C8: a non-UTF-8 include directory aborts the run right after the file
`include` is created — before anything is written to it and before any later
file exists; a non-UTF-8 library directory aborts right after `lib` is
created, before `lib` is written.  UTF-8 builder paths are thus a
precondition for producing the four outputs. -/
theorem c8_non_utf8_paths_abort (w : World) (a : Artifacts) (d : OsStr)
    (hb : w.buildResult = some a) (ho : w.env.out_dir = some d) :
    (w.createOk "include" = true → a.include_dir.utf8 = none →
      run w = ⟨Event.stdout rerunLine :: a.cargoMetadata.map Event.stdout
          ++ [Event.envRead "OUT_DIR", Event.createFile "include"], true⟩)
    ∧ (∀ inc, w.createOk "include" = true → a.include_dir.utf8 = some inc →
        w.writeOk "include" = true → w.createOk "lib" = true →
        a.lib_dir.utf8 = none →
        run w = ⟨Event.stdout rerunLine :: a.cargoMetadata.map Event.stdout
            ++ [Event.envRead "OUT_DIR", Event.createFile "include",
                Event.writeFile "include" inc, Event.createFile "lib"], true⟩) := by
  constructor
  · intro hc1 hinc
    simp [run, fileStep, hb, ho, hc1, hinc]
  · intro inc hc1 hinc hw1 hc2 hlb
    simp [run, fileStep, hb, ho, hc1, hinc, hw1, hc2, hlb]

/-- A run input whose builder returns a non-UTF-8 include directory. -/
def worldBadIncludePath : World :=
  ⟨some ⟨⟨none⟩, ⟨some "/build/lib"⟩, ["cargo:root=/build"]⟩, "3.1.4", sampleEnv,
    fun _ => true, fun _ => true⟩

/-- A run input whose builder returns a non-UTF-8 library directory. -/
def worldBadLibPath : World :=
  ⟨some ⟨⟨some "/build/include"⟩, ⟨none⟩, ["cargo:root=/build"]⟩, "3.1.4", sampleEnv,
    fun _ => true, fun _ => true⟩

/-- Witness for C8 evaluated on two concrete runs with non-UTF-8 paths. -/
theorem c8_witness :
    run worldBadIncludePath =
      ⟨[Event.stdout rerunLine, Event.stdout "cargo:root=/build",
        Event.envRead "OUT_DIR", Event.createFile "include"], true⟩ ∧
      run worldBadLibPath =
        ⟨[Event.stdout rerunLine, Event.stdout "cargo:root=/build",
          Event.envRead "OUT_DIR", Event.createFile "include",
          Event.writeFile "include" "/build/include", Event.createFile "lib"],
         true⟩ :=
  ⟨(c8_non_utf8_paths_abort worldBadIncludePath
      ⟨⟨none⟩, ⟨some "/build/lib"⟩, ["cargo:root=/build"]⟩ ⟨some "/out"⟩
      rfl rfl).1 rfl rfl,
    (c8_non_utf8_paths_abort worldBadLibPath
      ⟨⟨some "/build/include"⟩, ⟨none⟩, ["cargo:root=/build"]⟩ ⟨some "/out"⟩
      rfl rfl).2 "/build/include" rfl rfl rfl rfl rfl⟩

/-- C10: the file outputs are deterministic — two completed runs with the same
builder outcome, the same environment and the same version string perform
identical writes; each of the four files is written exactly once (the write
list's names are exactly the four distinct file names), and the event alphabet
of the model records every I/O action of the script, which includes no file
read. -/
theorem c10_deterministic_writes (w1 w2 : World)
    (hbb : w1.buildResult = w2.buildResult) (he : w1.env = w2.env)
    (hv : w1.version = w2.version)
    (h1 : (run w1).aborted = false) (h2 : (run w2).aborted = false) :
    writes (run w1) = writes (run w2) ∧
      (writes (run w1)).map Prod.fst = fileNames ∧ fileNames.Nodup := by
  obtain ⟨a, d, inc, lb, tgt, hb1, ho1, hinc, hlb, htgt,
    q1, q2, q3, q4, q5, q6, q7, q8⟩ := run_not_aborted w1 h1
  obtain ⟨a2, d2, inc2, lb2, tgt2, hb2, ho2, hinc2, hlb2, htgt2,
    r1, r2, r3, r4, r5, r6, r7, r8⟩ := run_not_aborted w2 h2
  obtain rfl : a = a2 := Option.some.inj (by rw [← hb1, ← hb2, hbb])
  obtain rfl : d = d2 := Option.some.inj (by rw [← ho1, ← ho2, he])
  obtain rfl : tgt = tgt2 := Option.some.inj (by rw [← htgt, ← htgt2, he])
  obtain rfl : inc = inc2 := Option.some.inj (hinc.symm.trans hinc2)
  obtain rfl : lb = lb2 := Option.some.inj (hlb.symm.trans hlb2)
  rw [run_success w1 a d inc lb tgt hb1 ho1 hinc hlb htgt q1 q2 q3 q4 q5 q6 q7 q8,
    run_success w2 a d inc lb tgt hb2 ho2 hinc2 hlb2 htgt2 r1 r2 r3 r4 r5 r6 r7 r8,
    writes_success, writes_success, hv]
  exact ⟨rfl, rfl, by decide⟩

/-- Witness for C10 on a concrete pair of identical successful runs. -/
theorem c10_witness :
    writes (run sampleWorld) = writes (run sampleWorld) ∧
      (writes (run sampleWorld)).map Prod.fst = fileNames ∧ fileNames.Nodup :=
  c10_deterministic_writes sampleWorld sampleWorld rfl rfl rfl rfl rfl

end LibresslTestcrate
